import Mathlib

/-!
Verification development for the CoverMeUp WhatsApp order-notification
service.  The JavaScript source is shallowly embedded: each Lean
definition below mirrors one function of the repository (the source file
and line range are given in its doc comment), with JavaScript strings
modelled as Lean `String`, nullable values as `Option`, and the Mongo
store as an explicit record of persisted documents.
-/

/-- Boolean test that the first character list occurs at the front of the
second one.  Used to model JavaScript substring search. -/
def chrSeqLeads : List Char → List Char → Bool
  | [], _ => true
  | _ :: _, [] => false
  | a :: as, b :: bs => a == b && chrSeqLeads as bs

/-- Boolean test that `needle` occurs contiguously somewhere in `hay`. -/
def chrSeqHas (needle : List Char) : List Char → Bool
  | [] => needle.isEmpty
  | c :: cs => chrSeqLeads needle (c :: cs) || chrSeqHas needle cs

/-- Model of JavaScript `hay.includes(needle)` (substring containment). -/
def strHas (hay needle : String) : Bool :=
  chrSeqHas needle.data hay.data

/-- Helper for `dedupFirst`: drop elements already seen. -/
def dedupFirstAux (seen : List String) : List String → List String
  | [] => []
  | x :: xs =>
    if seen.contains x then dedupFirstAux seen xs
    else x :: dedupFirstAux (x :: seen) xs

/-- Model of `Array.from(new Set(list))`: removes duplicates keeping the
first occurrence of each element, in order. -/
def dedupFirst (l : List String) : List String :=
  dedupFirstAux [] l

/-- Model of the JavaScript `a || b` idiom on possibly-absent strings:
an absent or empty (falsy) `a` falls through to `b`. -/
def jsOr (a : Option String) (b : String) : String :=
  match a with
  | none => b
  | some s => if s = "" then b else s

/-- Model of `a || b` where both operands may be absent strings. -/
def jsOrOpt (a b : Option String) : Option String :=
  match a with
  | none => b
  | some s => if s = "" then b else some s

/-- The digit characters of a string, in order; models
`String(raw).replace(/\D/g, "")` from `normalizePhone`. -/
def digitsOf (raw : String) : String :=
  String.mk (raw.data.filter Char.isDigit)

/-- Embedding of `normalizePhone` (src/src/server.js lines 63-69, repeated
verbatim in the other server variants): falsy input short-circuits to
null; otherwise all non-digit characters are stripped, a 10-digit string
gets the default country code prepended, an 11-digit string with a
leading zero drops the zero and gets the country code, and anything else
is returned unchanged.  `cc` is the configured `DEFAULT_COUNTRY_CODE`. -/
def normalizePhone (cc : String) (raw : String) : Option String :=
  if raw = "" then none
  else
    let d := digitsOf raw
    if d.length = 10 then some (cc ++ d)
    else if chrSeqLeads ['0'] d.data && d.length == 11 then
      some (cc ++ String.mk d.data.tail)
    else some d

/-- Lifts `normalizePhone` to a possibly-absent raw value, matching the
JavaScript behaviour on `undefined` input (`!raw` short-circuit). -/
def normalizePhoneOpt (cc : String) (raw : Option String) : Option String :=
  match raw with
  | none => none
  | some s => normalizePhone cc s

/-- The configured default country code (env default in every variant). -/
def DEFAULT_COUNTRY_CODE : String := "91"

/-- Model of JavaScript `s.toLowerCase()` for the ASCII strings this
service compares: per-character lowercasing. -/
def lowerStr (s : String) : String := String.mk (s.data.map Char.toLower)

/-- Model of JavaScript `s.trim()`: removes leading and trailing
whitespace characters. -/
def jsTrim (s : String) : String :=
  String.mk (((s.data.dropWhile Char.isWhitespace).reverse.dropWhile
    Char.isWhitespace).reverse)

/-- One Shopify line item, keeping only the fields the handlers read. -/
structure LineItem where
  title : String
  quantity : Nat
deriving DecidableEq

/-- The slice of a Shopify order-creation payload read by the handlers.
Nullable / possibly-absent string fields are `Option String`; plain
string fields that the code defaults with `|| ""` are `String`. -/
structure ShopifyOrder where
  id : Nat
  name : String
  phone : Option String
  customer_phone : Option String
  customer_first_name : Option String
  shipping_phone : Option String
  shipping_name : Option String
  total_price : String
  line_items : List LineItem
  payment_gateway_names : List String
  gateway : String
  payment_terms_name : String
  tags : String
  financial_status : String
deriving DecidableEq

/-- `(order.payment_gateway_names || []).join(" ").toLowerCase()` from
`isCODOrder` (src/src/server.js line 448). -/
def gatewaysJoined (o : ShopifyOrder) : String :=
  lowerStr (String.intercalate " " o.payment_gateway_names)

/-- Embedding of `isCODOrder` (src/src/server.js lines 445-464): COD when
the joined gateway names contain a cod token, else when the payment-terms
name does, else when the tags do, else when the financial status is
pending and the joined gateway-name string is empty.  The surrounding
try/catch is unreachable in this typed model. -/
def isCODOrder (o : ShopifyOrder) : Bool :=
  let gateways := gatewaysJoined o
  let terms := lowerStr o.payment_terms_name
  let tags := lowerStr o.tags
  if strHas gateways "cod" || strHas gateways "cash on delivery" then true
  else if strHas terms "cod" || strHas terms "cash on delivery" then true
  else if strHas tags "cod" then true
  else if lowerStr o.financial_status == "pending" && gateways == "" then true
  else false

/-- Embedding of the `codLikely` expression of the COD-aware server
variant (src/unnamed/part_005 lines 181-186): some lowered gateway name
matches /cod|cash on delivery|cash-on-delivery/, or the free-text
`gateway` field matches /cod|cash/, or the financial status is pending
and some gateway name contains "cash". -/
def codLikely (o : ShopifyOrder) : Bool :=
  let gateways := o.payment_gateway_names.map lowerStr
  gateways.any (fun g =>
      strHas g "cod" || strHas g "cash on delivery" || strHas g "cash-on-delivery")
  || (strHas (lowerStr o.gateway) "cod" || strHas (lowerStr o.gateway) "cash")
  || (lowerStr o.financial_status == "pending"
      && gateways.any (fun g => strHas g "cash"))

/-- The COD condition exactly as the claim words it (spec side, for
comparison with the code-side classifiers): gateway-name set contains a
COD/cash-on-delivery token, else the free-text gateway field contains a
COD/cash token, else the tags field contain a COD token, else the
financial status equals pending and a cash-like signal is present in the
gateway/tag fields. -/
def codSpecClaim (o : ShopifyOrder) : Bool :=
  (o.payment_gateway_names.map lowerStr).any (fun g =>
      strHas g "cod" || strHas g "cash on delivery")
  || (strHas (lowerStr o.gateway) "cod" || strHas (lowerStr o.gateway) "cash")
  || strHas (lowerStr o.tags) "cod"
  || (lowerStr o.financial_status == "pending"
      && ((o.payment_gateway_names.map lowerStr).any (fun g =>
            strHas g "cash" || strHas g "cod")
          || strHas (lowerStr o.gateway) "cash" || strHas (lowerStr o.gateway) "cod"
          || strHas (lowerStr o.tags) "cash" || strHas (lowerStr o.tags) "cod"))

/-- Splits a character list at the first dot, returning the part before
it and, when a dot is present, the part after it. -/
def breakAtDot : List Char → List Char × Option (List Char)
  | [] => ([], none)
  | c :: rest =>
    if c = '.' then ([], some rest)
    else
      let p := breakAtDot rest
      (c :: p.1, p.2)

/-- Numeric value of a digit character list. -/
def digitsToNat (l : List Char) : Nat :=
  l.foldl (fun n c => 10 * n + (c.toNat - 48)) 0

/-- Renders a fractional digit list to exactly two digits. -/
def fracTwo : List Char → String
  | [] => "00"
  | [a] => String.mk [a, '0']
  | a :: b :: _ => String.mk [a, b]

/-- Model of `(Number(s) || 0).toFixed(2)`.  Modelled exactly for plain
non-negative decimal literals with at most two fractional digits (the
only shapes Shopify total prices take and the only ones the claims
evaluate); every other input is rendered as the NaN-or-zero default
"0.00".  JavaScript float formatting beyond that domain is out of scope
of this shallow embedding. -/
def toFixed2 (s : String) : String :=
  let t := jsTrim s
  let p := breakAtDot t.data
  let ip := p.1
  let ok := !ip.isEmpty && ip.all Char.isDigit
    && (match p.2 with
        | none => true
        | some fp => fp.all Char.isDigit && fp.length ≤ 2)
  if ok then
    toString (digitsToNat ip) ++ "." ++ fracTwo (match p.2 with | none => [] | some fp => fp)
  else "0.00"

/-- The formatted total: backtick-template `₹` + toFixed(2) from the
orders-create handlers. -/
def formatTotal (s : String) : String := "₹" ++ toFixed2 s

/-- The items summary built by every orders-create handler:
map to "title xquantity", join with ", ", slice to 900 characters. -/
def itemsSummary (lis : List LineItem) : String :=
  String.mk ((String.intercalate ", "
    (lis.map (fun li => li.title ++ " x" ++ toString li.quantity))).data.take 900)

/-- `o.phone || o.customer?.phone || o.shipping_address?.phone`. -/
def rawPhoneOf (o : ShopifyOrder) : Option String :=
  jsOrOpt o.phone (jsOrOpt o.customer_phone o.shipping_phone)

/-- `o?.shipping_address?.name || o?.customer?.first_name || "there"`. -/
def displayNameOf (o : ShopifyOrder) : String :=
  jsOr o.shipping_name (jsOr o.customer_first_name "there")

/-- `o.name || String(o.id)`. -/
def orderIdOf (o : ShopifyOrder) : String :=
  if o.name = "" then toString o.id else o.name


/-- The WhatsApp Cloud API error data read by the dispatcher from a
failed send: `data?.error?.code` (possibly absent) and
`data?.error?.error_data?.details || ""`. -/
structure ApiErr where
  code : Option Int
  details : String
deriving DecidableEq

/-- The template-language-mismatch test of `sendTemplateWithFallback`
(src/src/server.js line 99): `code === 132001 &&
/does not exist/i.test(details)`. -/
def isLangMismatch (e : ApiErr) : Bool :=
  e.code == some (132001 : Int) && strHas (lowerStr e.details) "does not exist"

/-- The failure surfaced by a dispatch call: either a propagated API
error or the generic exhaustion error thrown when the language list was
empty (`lastErr || new Error("All language attempts failed")`). -/
inductive DispatchErr where
  | api (e : ApiErr)
  | allLanguagesFailed
deriving DecidableEq

/-- Result of one dispatch call, with the audit log of attempts made,
each recorded as (template name, language code) in order. -/
inductive DispatchResult where
  | ok (lang : String) (attempts : List (String × String))
  | err (e : DispatchErr) (attempts : List (String × String))
deriving DecidableEq

/-- The attempt log of a dispatch result. -/
def attemptsOf : DispatchResult → List (String × String)
  | .ok _ log => log
  | .err _ log => log

/-- Embedding of the language loop of `sendTemplateWithFallback`
(src/src/server.js lines 71-107).  `attempt tmpl lang` is the outcome of
one network send (`none` = success); `lastErr` and `log` carry the loop
state.  A success returns immediately; a language-mismatch failure
records the error and continues with the next language; any other
failure is thrown at once; an exhausted list throws the recorded last
error, or the generic error when no language was ever tried. -/
def sendLoop (attempt : String → String → Option ApiErr) (tmpl : String) :
    List String → Option ApiErr → List (String × String) → DispatchResult
  | [], lastErr, log =>
    .err (match lastErr with | some e => .api e | none => .allLanguagesFailed) log
  | l :: ls, _lastErr, log =>
    match attempt tmpl l with
    | none => .ok l (log ++ [(tmpl, l)])
    | some e =>
      if isLangMismatch e then sendLoop attempt tmpl ls (some e) (log ++ [(tmpl, l)])
      else .err (.api e) (log ++ [(tmpl, l)])

/-- The de-duplicated language list of `sendTemplateWithFallback`
(src/src/server.js line 72): primary configured language then the two
baseline fallbacks, falsy entries removed, first occurrences kept. -/
def langsFor (primary : String) : List String :=
  dedupFirst (([primary, "en_US", "en"]).filter (fun s => s ≠ ""))

/-- Embedding of `sendTemplateWithFallback` (src/src/server.js lines
71-107) as a whole: run the language loop over the de-duplicated list
with empty initial state. -/
def sendTemplateWithFallback (attempt : String → String → Option ApiErr)
    (primary tmpl : String) : DispatchResult :=
  sendLoop attempt tmpl (langsFor primary) none []

/-- Embedding of the send section of the orders-create handler of the
server variant embedded in src/src/store.js (lines 276-303 of that
file): send the confirmation template; on any failure try the
no-parameter `FALLBACK_TEMPLATE` (default "hello_world"); a failure of
that fallback attempt is only logged.  Returns the attempts made as
(template, succeeded) pairs together with the HTTP response, which is
the acknowledgment in every case. -/
def ordersCreateSendV2 (send : String → Option ApiErr) :
    List (String × Bool) × String :=
  match send "order_confirmation" with
  | none => ([("order_confirmation", true)], "ok")
  | some _ =>
    match send "hello_world" with
    | none => ([("order_confirmation", false), ("hello_world", true)], "ok")
    | some _ => ([("order_confirmation", false), ("hello_world", false)], "ok")

/-- The classified intent of one inbound reply. -/
inductive ReplyIntent where
  | confirm
  | reject
  | other
deriving DecidableEq

/-- The generic affirmative whole-word set of the reply handlers
(`/^(yes|y|confirm|ok|okay|confirmed)$/i`). -/
def yesWords : List String := ["yes", "y", "confirm", "ok", "okay", "confirmed"]

/-- The generic negative whole-word set of the reply handlers
(`/^(no|n|cancel|reject|stop)$/i`). -/
def noWords : List String := ["no", "n", "cancel", "reject", "stop"]

/-- The reply decision chain on the already-trimmed, lowercased text,
as ordered in the inbound WhatsApp handler of the server variant
embedded in src/src/store.js (lines 201-236 of that file): the COD
quick-reply phrases first, then the generic yes and no sets, else
other.  Anchored case-insensitive regex matching is modelled by
comparing the lowercased string. -/
def classifyCore (t : String) : ReplyIntent :=
  if t == "confirm cod" then .confirm
  else if t == "cancel order" then .reject
  else if yesWords.contains t then .confirm
  else if noWords.contains t then .reject
  else .other

/-- The reply classifier on raw inbound text: trim (as the handler does
when extracting the button or body text), lowercase, decide. -/
def classifyReply (txt : String) : ReplyIntent :=
  classifyCore (lowerStr (jsTrim txt))

/-- An Order document as persisted to the `orders` collection.  The
creation handlers set the first eight fields (the plain variant stores
the Shopify numeric id under `id` and omits `cod`; the COD-aware variant
stores it under `shopifyId` and adds the boolean `cod` flag, modelled
here as `Option Bool`, `none` meaning the field is absent); the store
stamps `createdAt` on insert; the reconciler later sets `status`,
`lastReply` and `updatedAt`. -/
structure OrderRec where
  orderId : String
  shopifyId : Nat
  phone : String
  name : String
  total : String
  items : String
  status : String
  cod : Option Bool
  lastReply : Option String
  createdAt : Nat
  updatedAt : Option Nat
deriving DecidableEq

/-- A Message document as persisted to the `messages` collection. -/
structure MessageRec where
  sender : String
  body : String
  mtype : String
  mid : String
deriving DecidableEq

/-- The persisted contents of the store, as far as the handlers touch
them. -/
structure StoreState where
  orders : List OrderRec
  messages : List MessageRec
deriving DecidableEq

/-- Embedding of the reconciliation applied to the targeted (latest)
order for a sender by the inbound WhatsApp handler of the server variant
embedded in src/src/store.js (lines 201-236 of that file), combined with
`updateLatestOrderByPhone` (src/src/store.js lines 54-61) which `$set`s
the patch plus a fresh `updatedAt`.  `incomingText` is the trimmed text;
`now` is the update timestamp.  The COD quick-reply phrases store a
canonical `lastReply`; the generic yes/no branches and the final
catch-all store the incoming text itself. -/
def applyReplyToOrder (now : Nat) (incomingText : String) (o : OrderRec) : OrderRec :=
  if lowerStr incomingText == "confirm cod" then
    { o with status := "confirmed", lastReply := some "Confirm COD", updatedAt := some now }
  else if lowerStr incomingText == "cancel order" then
    { o with status := "rejected", lastReply := some "Cancel Order", updatedAt := some now }
  else if yesWords.contains (lowerStr incomingText) then
    { o with status := "confirmed", lastReply := some incomingText, updatedAt := some now }
  else if noWords.contains (lowerStr incomingText) then
    { o with status := "rejected", lastReply := some incomingText, updatedAt := some now }
  else
    { o with lastReply := some incomingText, updatedAt := some now }

/-- One inbound reply processed against the latest order: the handler
trims the extracted button/body text before matching. -/
def processReply (now : Nat) (rawText : String) (o : OrderRec) : OrderRec :=
  applyReplyToOrder now (jsTrim rawText) o

/-- A sequence of inbound replies (timestamp, raw text) applied in
order, as successive webhook deliveries from the same sender would be. -/
def processReplies (o : OrderRec) : List (Nat × String) → OrderRec
  | [] => o
  | (now, txt) :: rest => processReplies (processReply now txt o) rest

/-- The HTTP response of a Shopify webhook handler. -/
inductive HandlerResp where
  | unauthorized
  | noPhone
  | ok
deriving DecidableEq

/-- One outbound template send attempted by a handler: recipient,
template name, ordered body parameters. -/
structure SendReq where
  recipient : String
  template : String
  params : List String
deriving DecidableEq

/-- Embedding of the orders-create handler of the COD-aware server
variant (src/unnamed/part_005 lines 169-230).  `hmacOk` is the result of
`verifyShopifyHmac` (the keyed-hash comparison itself is left to the
transport layer); `now` is the insert timestamp.  Returns the response,
the store contents after the call, and the template sends attempted
(send failures are caught and change nothing, so the attempt list is
independent of the transport outcome). -/
def ordersCreateCOD (hmacOk : Bool) (now : Nat) (o : ShopifyOrder)
    (st : StoreState) : HandlerResp × StoreState × List SendReq :=
  if hmacOk = false then (.unauthorized, st, [])
  else
    match normalizePhoneOpt DEFAULT_COUNTRY_CODE (rawPhoneOf o) with
    | none => (.noPhone, st, [])
    | some t =>
      if t = "" then (.noPhone, st, [])
      else
        let cod := codLikely o
        let nm := displayNameOf o
        let oid := orderIdOf o
        let tot := formatTotal o.total_price
        let its := itemsSummary o.line_items
        let orec : OrderRec :=
          { orderId := oid, shopifyId := o.id, phone := t, name := nm,
            total := tot, items := its,
            status := if cod then "pending_cod" else "pending",
            cod := some cod, lastReply := none, createdAt := now, updatedAt := none }
        let send : SendReq :=
          if cod then ⟨t, "cod_confirm_v1", [nm, oid, "CoverMeUp"]⟩
          else ⟨t, "order_confirmation", [nm, oid, "CoverMeUp", tot, its]⟩
        (.ok, { st with orders := st.orders ++ [orec] }, [send])

/-- Embedding of the orders-create handler of src/src/server.js (lines
165-207): persists the order with status "pending" unconditionally (and
no `cod` field), then dispatches the confirmation template through
`sendTemplateWithFallback`, whose failure is caught.  Returns the
response, the new store contents, and the dispatch attempt log. -/
def ordersCreateV1 (hmacOk : Bool) (attempt : String → String → Option ApiErr)
    (primary : String) (now : Nat) (o : ShopifyOrder) (st : StoreState) :
    HandlerResp × StoreState × List (String × String) :=
  if hmacOk = false then (.unauthorized, st, [])
  else
    match normalizePhoneOpt DEFAULT_COUNTRY_CODE (rawPhoneOf o) with
    | none => (.noPhone, st, [])
    | some t =>
      if t = "" then (.noPhone, st, [])
      else
        let orec : OrderRec :=
          { orderId := orderIdOf o, shopifyId := o.id, phone := t,
            name := displayNameOf o, total := formatTotal o.total_price,
            items := itemsSummary o.line_items, status := "pending",
            cod := none, lastReply := none, createdAt := now, updatedAt := none }
        let d := sendTemplateWithFallback attempt primary "order_confirmation"
        (.ok, { st with orders := st.orders ++ [orec] }, attemptsOf d)

/-- The slice of a Shopify fulfillment payload read by the
fulfillments-create handler. -/
structure FulfillmentEvent where
  name : String
  order_id : Nat
  shipping_phone : Option String
  shipping_name : Option String
deriving DecidableEq

/-- Embedding of the fulfillments-create handler of src/src/server.js
(lines 210-235): HMAC guard, phone resolution, then a shipped-template
dispatch whose failure is caught; it performs no store mutation, so only
the response and the dispatch attempt log are returned. -/
def fulfillmentsCreate (hmacOk : Bool) (attempt : String → String → Option ApiErr)
    (primary : String) (f : FulfillmentEvent) :
    HandlerResp × List (String × String) :=
  if hmacOk = false then (.unauthorized, [])
  else
    match normalizePhoneOpt DEFAULT_COUNTRY_CODE f.shipping_phone with
    | none => (.noPhone, [])
    | some t =>
      if t = "" then (.noPhone, [])
      else
        (.ok, attemptsOf (sendTemplateWithFallback attempt primary "order_update"))

/-- A payload with every field empty or absent, for building concrete
test inputs by record update. -/
def emptyOrder : ShopifyOrder :=
  { id := 0, name := "", phone := none, customer_phone := none,
    customer_first_name := none, shipping_phone := none, shipping_name := none,
    total_price := "", line_items := [], payment_gateway_names := [],
    gateway := "", payment_terms_name := "", tags := "", financial_status := "" }

/-- The end-to-end scenario order of the specification: phone
"9876543210", gateway name "Cash on Delivery", financial status pending,
total "499.00". -/
def oCOD499 : ShopifyOrder :=
  { emptyOrder with
    id := 1001, name := "#1001", phone := some "9876543210",
    customer_first_name := some "Asha", total_price := "499.00",
    line_items := [⟨"Phone Cover", 1⟩],
    payment_gateway_names := ["Cash on Delivery"],
    financial_status := "pending" }

/-- The prepaid example order: gateway razorpay, financial status paid. -/
def oPrepaid : ShopifyOrder :=
  { emptyOrder with
    id := 1002, name := "#1002", phone := some "9876543211",
    total_price := "799.00", payment_gateway_names := ["razorpay"],
    gateway := "razorpay", financial_status := "paid" }

/-- An order with financial status pending and no gateway, term, tag or
cash signal anywhere. -/
def oPendingNoGateway : ShopifyOrder :=
  { emptyOrder with id := 1003, financial_status := "pending" }

/-- An empty store. -/
def emptyStore : StoreState := ⟨[], []⟩

/-- A transport in which the template is missing in every language:
each send fails with code 132001 and a does-not-exist detail. -/
def attemptAllMissing (tmpl lang : String) : Option ApiErr :=
  some ⟨some 132001, "template " ++ tmpl ++ " does not exist in " ++ lang⟩

/-- A transport in which only language "hi" lacks the template. -/
def attemptHindiMissing (tmpl lang : String) : Option ApiErr :=
  if lang = "hi" then
    some ⟨some 132001, "template " ++ tmpl ++ " does not exist in hi"⟩
  else none

/-- A transport failing every send with a non-template error. -/
def attemptHardFailure (_tmpl _lang : String) : Option ApiErr :=
  some ⟨some 131026, "message undeliverable"⟩

/-- A single-template transport that always fails. -/
def sendBoom (_tmpl : String) : Option ApiErr := some ⟨none, "boom"⟩

/-- A confirmed order record, as left behind by an earlier CONFIRM. -/
def oConfirmedRec : OrderRec :=
  { orderId := "#1001", shopifyId := 1001, phone := "919876543210",
    name := "Asha", total := "₹499.00", items := "Phone Cover x1",
    status := "confirmed", cod := some true, lastReply := some "yes",
    createdAt := 5, updatedAt := some 6 }

/-- A freshly created COD order record awaiting a reply. -/
def oPendingCODRec : OrderRec :=
  { orderId := "#1001", shopifyId := 1001, phone := "919876543210",
    name := "Asha", total := "₹499.00", items := "Phone Cover x1",
    status := "pending_cod", cod := some true, lastReply := none,
    createdAt := 5, updatedAt := none }

lemma chrSeqLeads_singleton (c : Char) (l : List Char) :
    chrSeqLeads [c] l = true ↔ l.head? = some c := by
  cases l with
  | nil =>
    rw [show chrSeqLeads [c] [] = false from rfl]
    simp
  | cons b bs =>
    rw [show chrSeqLeads [c] (b :: bs) = (c == b && chrSeqLeads [] bs) from rfl]
    rw [show chrSeqLeads [] bs = true from rfl]
    simp
    exact eq_comm

set_option maxRecDepth 4000 in
lemma yesWords_cases (t : String) (h : yesWords.contains t = true) :
    t = "yes" ∨ t = "y" ∨ t = "confirm" ∨ t = "ok" ∨ t = "okay" ∨ t = "confirmed" := by
  simpa [yesWords, List.contains] using h

set_option maxRecDepth 4000 in
lemma noWords_cases (t : String) (h : noWords.contains t = true) :
    t = "no" ∨ t = "n" ∨ t = "cancel" ∨ t = "reject" ∨ t = "stop" := by
  simpa [noWords, List.contains] using h

lemma classifyCore_other_conds (t : String) (h : classifyCore t = .other) :
    (t == "confirm cod") = false ∧ (t == "cancel order") = false ∧
      yesWords.contains t = false ∧ noWords.contains t = false := by
  unfold classifyCore at h
  split_ifs at h <;> simp_all

lemma processReply_status_eq (now : Nat) (txt : String) (o : OrderRec) :
    (processReply now txt o).status =
      match classifyReply txt with
      | .confirm => "confirmed"
      | .reject => "rejected"
      | .other => o.status := by
  unfold processReply applyReplyToOrder classifyReply classifyCore
  split_ifs <;> rfl

lemma processReplies_terminal (o : OrderRec) (msgs : List (Nat × String))
    (h : o.status = "confirmed" ∨ o.status = "rejected") :
    (processReplies o msgs).status = "confirmed" ∨
      (processReplies o msgs).status = "rejected" := by
  induction msgs generalizing o with
  | nil => simpa [processReplies] using h
  | cons m rest ih =>
    obtain ⟨now, txt⟩ := m
    have hstep : (processReply now txt o).status = "confirmed" ∨
        (processReply now txt o).status = "rejected" := by
      rw [processReply_status_eq]
      cases classifyReply txt
      · exact Or.inl rfl
      · exact Or.inr rfl
      · exact h
    simpa [processReplies] using ih (processReply now txt o) hstep

/-- C6: the reply classifier is total (CONFIRM, REJECT or OTHER for
every string) and matches the whole trimmed string case-insensitively in
rule order: the COD confirm phrase yields CONFIRM, the COD cancel phrase
yields REJECT, the generic affirmative set yields CONFIRM, the generic
negative set yields REJECT, and everything else yields OTHER; in
particular classify("Confirm COD") = CONFIRM and
classify("maybe") = OTHER. -/
theorem C6_reply_classifier_total_and_ordered :
    (∀ s : String, classifyReply s = .confirm ∨ classifyReply s = .reject ∨
       classifyReply s = .other) ∧
    (∀ s : String, lowerStr (jsTrim s) = "confirm cod" → classifyReply s = .confirm) ∧
    (∀ s : String, lowerStr (jsTrim s) = "cancel order" → classifyReply s = .reject) ∧
    (∀ s : String, yesWords.contains (lowerStr (jsTrim s)) = true →
       classifyReply s = .confirm) ∧
    (∀ s : String, noWords.contains (lowerStr (jsTrim s)) = true →
       classifyReply s = .reject) ∧
    (∀ s : String, lowerStr (jsTrim s) ≠ "confirm cod" →
       lowerStr (jsTrim s) ≠ "cancel order" →
       yesWords.contains (lowerStr (jsTrim s)) = false →
       noWords.contains (lowerStr (jsTrim s)) = false →
       classifyReply s = .other) ∧
    classifyReply "Confirm COD" = .confirm ∧ classifyReply "maybe" = .other := by
  refine ⟨?_, ?_, ?_, ?_, ?_, ?_, by decide, by decide⟩
  · intro s
    cases classifyReply s
    · exact Or.inl rfl
    · exact Or.inr (Or.inl rfl)
    · exact Or.inr (Or.inr rfl)
  · intro s h
    unfold classifyReply
    rw [h]
    decide
  · intro s h
    unfold classifyReply
    rw [h]
    decide
  · intro s h
    unfold classifyReply
    rcases yesWords_cases _ h with h1 | h1 | h1 | h1 | h1 | h1 <;> rw [h1] <;> decide
  · intro s h
    unfold classifyReply
    rcases noWords_cases _ h with h1 | h1 | h1 | h1 | h1 <;> rw [h1] <;> decide
  · intro s h1 h2 h3 h4
    have hm3 : lowerStr (jsTrim s) ∉ yesWords := by simpa using h3
    have hm4 : lowerStr (jsTrim s) ∉ noWords := by simpa using h4
    unfold classifyReply classifyCore
    simp [h1, h2, hm3, hm4]

/-- Witness for C6 at concrete replies from each rule class. -/
theorem C6_witness :
    classifyReply " Cancel Order " = .reject ∧ classifyReply "OK" = .confirm ∧
      classifyReply "STOP" = .reject ∧ classifyReply "ship it tomorrow" = .other :=
  ⟨C6_reply_classifier_total_and_ordered.2.2.1 " Cancel Order " (by decide),
   C6_reply_classifier_total_and_ordered.2.2.2.1 "OK" (by decide),
   C6_reply_classifier_total_and_ordered.2.2.2.2.1 "STOP" (by decide),
   C6_reply_classifier_total_and_ordered.2.2.2.2.2.1 "ship it tomorrow"
     (by decide) (by decide) (by decide) (by decide)⟩

/-- C7: once an order is confirmed or rejected, no sequence of further
inbound replies brings its status back to a pending state — the status
stays in the terminal set — and a repeated CONFIRM (resp. REJECT)
re-applies the same terminal status. -/
theorem C7_terminal_status_monotone :
    (∀ (o : OrderRec) (msgs : List (Nat × String)),
       o.status = "confirmed" ∨ o.status = "rejected" →
       ((processReplies o msgs).status = "confirmed" ∨
         (processReplies o msgs).status = "rejected") ∧
       (processReplies o msgs).status ≠ "pending" ∧
       (processReplies o msgs).status ≠ "cod_pending" ∧
       (processReplies o msgs).status ≠ "pending_cod") ∧
    (∀ (now : Nat) (txt : String) (o : OrderRec),
       classifyReply txt = .confirm → (processReply now txt o).status = "confirmed") ∧
    (∀ (now : Nat) (txt : String) (o : OrderRec),
       classifyReply txt = .reject → (processReply now txt o).status = "rejected") := by
  refine ⟨?_, ?_, ?_⟩
  · intro o msgs h
    have ht := processReplies_terminal o msgs h
    refine ⟨ht, ?_, ?_, ?_⟩ <;> rcases ht with h2 | h2 <;> rw [h2] <;> decide
  · intro now txt o h
    rw [processReply_status_eq, h]
  · intro now txt o h
    rw [processReply_status_eq, h]

/-- Witness for C7: a confirmed order stays terminal across further
replies, and repeated CONFIRM / REJECT re-fire the same status. -/
theorem C7_witness :
    (((processReplies oConfirmedRec [(8, "maybe"), (9, "no"), (10, "hello")]).status =
        "confirmed" ∨
      (processReplies oConfirmedRec [(8, "maybe"), (9, "no"), (10, "hello")]).status =
        "rejected") ∧
      (processReplies oConfirmedRec [(8, "maybe"), (9, "no"), (10, "hello")]).status ≠
        "pending" ∧
      (processReplies oConfirmedRec [(8, "maybe"), (9, "no"), (10, "hello")]).status ≠
        "cod_pending" ∧
      (processReplies oConfirmedRec [(8, "maybe"), (9, "no"), (10, "hello")]).status ≠
        "pending_cod") ∧
    (processReply 11 "Confirm COD" oConfirmedRec).status = "confirmed" ∧
    (processReply 12 "no" oConfirmedRec).status = "rejected" :=
  ⟨C7_terminal_status_monotone.1 oConfirmedRec [(8, "maybe"), (9, "no"), (10, "hello")]
     (Or.inl rfl),
   C7_terminal_status_monotone.2.1 11 "Confirm COD" oConfirmedRec (by decide),
   C7_terminal_status_monotone.2.2 12 "no" oConfirmedRec (by decide)⟩

/-- C8: a reply classified OTHER leaves every order field except
`lastReply` and `updatedAt` unchanged, and stores the (trimmed) reply
text in `lastReply`. -/
theorem C8_other_reply_frame :
    ∀ (now : Nat) (o : OrderRec) (raw : String),
      classifyReply raw = .other →
      processReply now raw o =
        { o with lastReply := some (jsTrim raw), updatedAt := some now } := by
  intro now o raw h
  unfold classifyReply at h
  obtain ⟨h1, h2, h3, h4⟩ := classifyCore_other_conds _ h
  have hm3 : lowerStr (jsTrim raw) ∉ yesWords := by simpa using h3
  have hm4 : lowerStr (jsTrim raw) ∉ noWords := by simpa using h4
  unfold processReply applyReplyToOrder
  simp [h1, h2, hm3, hm4]

/-- Witness for C8: an OTHER reply to a pending COD order only updates
`lastReply` and `updatedAt`. -/
theorem C8_witness :
    processReply 9 "maybe later" oPendingCODRec =
      { oPendingCODRec with lastReply := some (jsTrim "maybe later"), updatedAt := some 9 } :=
  C8_other_reply_frame 9 oPendingCODRec "maybe later" (by decide)

/-- C5: the phone normalizer strips non-digits, prepends the country
code to a 10-digit result, drops the leading zero of an 11-digit result
starting with zero and prepends the country code, returns any other
digit string unchanged, and maps empty input to null; with the concrete
examples of the specification. -/
theorem C5_phone_normalizer :
    (∀ raw : String, raw ≠ "" → (digitsOf raw).length = 10 →
       normalizePhone "91" raw = some ("91" ++ digitsOf raw)) ∧
    (∀ raw : String, raw ≠ "" → (digitsOf raw).length = 11 →
       (digitsOf raw).data.head? = some '0' →
       normalizePhone "91" raw = some ("91" ++ String.mk (digitsOf raw).data.tail)) ∧
    (∀ raw : String, raw ≠ "" → (digitsOf raw).length ≠ 10 →
       ¬((digitsOf raw).length = 11 ∧ (digitsOf raw).data.head? = some '0') →
       normalizePhone "91" raw = some (digitsOf raw)) ∧
    normalizePhone "91" "" = none ∧
    normalizePhone "91" "9876543210" = some "919876543210" ∧
    normalizePhone "91" "09876543210" = some "919876543210" ∧
    normalizePhone "91" "919876543210" = some "919876543210" := by
  refine ⟨?_, ?_, ?_, by decide, by decide, by decide, by decide⟩
  · intro raw hne h10
    unfold normalizePhone
    rw [if_neg hne, if_pos h10]
  · intro raw hne h11 h0
    unfold normalizePhone
    rw [if_neg hne, if_neg (by simp [h11]), if_pos]
    rw [Bool.and_eq_true]
    constructor
    · exact (chrSeqLeads_singleton '0' (digitsOf raw).data).mpr h0
    · simpa using h11
  · intro raw hne h10 hrest
    unfold normalizePhone
    rw [if_neg hne, if_neg h10, if_neg]
    intro hcond
    rw [Bool.and_eq_true] at hcond
    exact hrest ⟨by simpa using hcond.2,
      (chrSeqLeads_singleton '0' (digitsOf raw).data).mp hcond.1⟩

/-- Witness for C5 at inputs with formatting characters exercising each
branch: a 10-digit local number, an 11-digit trunk-prefixed number, and
an already-international number. -/
theorem C5_witness :
    normalizePhone "91" "(987) 654-3210" = some ("91" ++ digitsOf "(987) 654-3210") ∧
    normalizePhone "91" "0-98765 43210" =
      some ("91" ++ String.mk (digitsOf "0-98765 43210").data.tail) ∧
    normalizePhone "91" "+91 98765 43210" = some (digitsOf "+91 98765 43210") :=
  ⟨C5_phone_normalizer.1 "(987) 654-3210" (by decide) (by decide),
   C5_phone_normalizer.2.1 "0-98765 43210" (by decide) (by decide) (by decide),
   C5_phone_normalizer.2.2.1 "+91 98765 43210" (by decide) (by decide) (by decide)⟩

/-- C10: a non-empty input with no digit characters normalizes to the
empty string, not to null; the null short-circuit is taken exactly for
the falsy (empty) raw input. -/
theorem C10_empty_digit_string :
    (∀ s : String, s ≠ "" → (∀ c ∈ s.data, c.isDigit = false) →
       normalizePhone DEFAULT_COUNTRY_CODE s = some "") ∧
    (∀ s : String, s ≠ "" → normalizePhone DEFAULT_COUNTRY_CODE s ≠ none) ∧
    normalizePhone DEFAULT_COUNTRY_CODE "abc" = some "" ∧
    normalizePhone DEFAULT_COUNTRY_CODE "" = none := by
  refine ⟨?_, ?_, by decide, by decide⟩
  · intro s hne hnd
    have hd : digitsOf s = "" := by
      unfold digitsOf
      have : s.data.filter Char.isDigit = [] := by
        rw [List.filter_eq_nil_iff]
        intro c hc
        simp [hnd c hc]
      rw [this]
    unfold normalizePhone
    rw [if_neg hne, hd]
    decide
  · intro s hne
    unfold normalizePhone
    rw [if_neg hne]
    dsimp only
    split_ifs <;> simp

/-- Witness for C10 at the digit-free input "abc" and at a non-empty
input. -/
theorem C10_witness :
    normalizePhone DEFAULT_COUNTRY_CODE "abc" = some "" ∧
    normalizePhone DEFAULT_COUNTRY_CODE "xyz" ≠ none :=
  ⟨C10_empty_digit_string.1 "abc" (by decide) (by decide),
   C10_empty_digit_string.2.1 "xyz" (by decide)⟩

/-- C9: when the HMAC signature check fails, each Shopify webhook
handler answers 401 Unauthorized, the store is untouched, and no
template send is attempted. -/
theorem C9_hmac_failure_no_mutation :
    (∀ (now : Nat) (o : ShopifyOrder) (st : StoreState),
       ordersCreateCOD false now o st = (.unauthorized, st, [])) ∧
    (∀ (attempt : String → String → Option ApiErr) (primary : String) (now : Nat)
       (o : ShopifyOrder) (st : StoreState),
       ordersCreateV1 false attempt primary now o st = (.unauthorized, st, [])) ∧
    (∀ (attempt : String → String → Option ApiErr) (primary : String)
       (f : FulfillmentEvent),
       fulfillmentsCreate false attempt primary f = (.unauthorized, [])) := by
  refine ⟨?_, ?_, ?_⟩
  · intro now o st
    rfl
  · intro attempt primary now o st
    rfl
  · intro attempt primary f
    rfl

/-- Counterexample to C1: the end-to-end COD order (phone "9876543210",
gateway "Cash on Delivery", pending) is COD-classified and its phone is
dispatchable, yet the COD-aware orders-create handler persists the order
with status "pending_cod" — not "cod_pending" — and with a boolean
`cod` flag rather than a `paymentClass` field. -/
theorem C1_counterexample :
    codLikely oCOD499 = true ∧
    normalizePhoneOpt DEFAULT_COUNTRY_CODE (rawPhoneOf oCOD499) =
      some "919876543210" ∧
    ((ordersCreateCOD true 7 oCOD499 emptyStore).2.1.orders.map
       (fun r => (r.phone, r.status, r.cod))) =
      [("919876543210", "pending_cod", some true)] ∧
    ("pending_cod" : String) ≠ "cod_pending" := by
  refine ⟨by decide, by decide, ?_, by decide⟩
  decide

/-- C1 as amended: for every order event whose phone resolves to a
dispatchable address, the COD-aware handler persists exactly one new
Order whose status is "pending_cod" when the event is COD-classified and
"pending" otherwise, with the boolean `cod` flag mirroring the
classification; the plain handler persists status "pending"
unconditionally and no `cod` field. -/
theorem C1_amended_persisted_status :
    ∀ (now : Nat) (o : ShopifyOrder) (st : StoreState) (t : String),
      normalizePhoneOpt DEFAULT_COUNTRY_CODE (rawPhoneOf o) = some t → t ≠ "" →
      (∃ orec : OrderRec,
        (ordersCreateCOD true now o st).2.1.orders = st.orders ++ [orec] ∧
        orec.status = (if codLikely o then "pending_cod" else "pending") ∧
        orec.cod = some (codLikely o) ∧ orec.phone = t ∧
        (ordersCreateCOD true now o st).1 = .ok) ∧
      (∀ (attempt : String → String → Option ApiErr) (primary : String),
        ∃ orec2 : OrderRec,
          (ordersCreateV1 true attempt primary now o st).2.1.orders =
            st.orders ++ [orec2] ∧
          orec2.status = "pending" ∧ orec2.cod = none) := by
  intro now o st t h ht
  constructor
  · unfold ordersCreateCOD
    rw [if_neg (show ¬(true = false) by decide), h]
    dsimp only
    rw [if_neg ht]
    exact ⟨_, rfl, rfl, rfl, rfl, rfl⟩
  · intro attempt primary
    unfold ordersCreateV1
    rw [if_neg (show ¬(true = false) by decide), h]
    dsimp only
    rw [if_neg ht]
    exact ⟨_, rfl, rfl, rfl⟩

/-- Witness for C1 as amended, at the concrete COD order of the
end-to-end scenario. -/
theorem C1_amended_witness :
    (∃ orec : OrderRec,
      (ordersCreateCOD true 7 oCOD499 emptyStore).2.1.orders =
        emptyStore.orders ++ [orec] ∧
      orec.status = (if codLikely oCOD499 then "pending_cod" else "pending") ∧
      orec.cod = some (codLikely oCOD499) ∧ orec.phone = "919876543210" ∧
      (ordersCreateCOD true 7 oCOD499 emptyStore).1 = .ok) ∧
    (∀ (attempt : String → String → Option ApiErr) (primary : String),
      ∃ orec2 : OrderRec,
        (ordersCreateV1 true attempt primary 7 oCOD499 emptyStore).2.1.orders =
          emptyStore.orders ++ [orec2] ∧
        orec2.status = "pending" ∧ orec2.cod = none) :=
  C1_amended_persisted_status 7 oCOD499 emptyStore "919876543210" (by decide) (by decide)

/-- Counterexample to C4: an order whose gateway names, free-text
gateway, terms and tags are all empty but whose financial status is
pending carries no COD or cash signal, so the decision procedure the
claim describes answers prepaid; `isCODOrder` nevertheless answers COD,
because its last clause fires on financial status pending with an EMPTY
gateway string (absence of a signal), not on a cash-like signal being
present. -/
theorem C4_counterexample :
    isCODOrder oPendingNoGateway = true ∧
    codSpecClaim oPendingNoGateway = false ∧
    codLikely oPendingNoGateway = false := by
  refine ⟨by decide, by decide, by decide⟩

/-- C4 as amended: `isCODOrder` is pure and returns COD exactly when the
joined gateway-name string contains a cod token, or the payment-terms
name does, or the tags contain "cod", or the financial status is
pending and the joined gateway-name string is EMPTY; the concrete
examples of the specification hold for both code classifiers. -/
theorem C4_amended_classifier :
    (∀ o : ShopifyOrder, isCODOrder o = true ↔
      (strHas (gatewaysJoined o) "cod" = true ∨
       strHas (gatewaysJoined o) "cash on delivery" = true ∨
       strHas (lowerStr o.payment_terms_name) "cod" = true ∨
       strHas (lowerStr o.payment_terms_name) "cash on delivery" = true ∨
       strHas (lowerStr o.tags) "cod" = true ∨
       (lowerStr o.financial_status = "pending" ∧ gatewaysJoined o = ""))) ∧
    isCODOrder oCOD499 = true ∧ codLikely oCOD499 = true ∧
    isCODOrder oPrepaid = false ∧ codLikely oPrepaid = false := by
  refine ⟨?_, by decide, by decide, by decide, by decide⟩
  intro o
  unfold isCODOrder
  dsimp only
  split_ifs with h1 h2 h3 h4 <;> simp_all <;> tauto

/-- C3: over a language list [A, B], a send under A failing with code
132001 and does-not-exist details followed by a success under B makes
exactly two attempts and succeeds using B; any failure not matching the
template-does-not-exist pattern aborts the loop at once and is the error
propagated. -/
theorem C3_language_loop_fallback :
    (∀ (attempt : String → String → Option ApiErr) (tmpl A B : String) (e : ApiErr),
       attempt tmpl A = some e → e.code = some (132001 : Int) →
       strHas (lowerStr e.details) "does not exist" = true →
       attempt tmpl B = none →
       sendLoop attempt tmpl [A, B] none [] = .ok B [(tmpl, A), (tmpl, B)]) ∧
    (∀ (attempt : String → String → Option ApiErr) (tmpl l : String)
       (ls : List String) (e : ApiErr) (lastErr : Option ApiErr)
       (log : List (String × String)),
       attempt tmpl l = some e → isLangMismatch e = false →
       sendLoop attempt tmpl (l :: ls) lastErr log = .err (.api e) (log ++ [(tmpl, l)])) := by
  constructor
  · intro attempt tmpl A B e hA hcode hdet hB
    have hm : isLangMismatch e = true := by
      unfold isLangMismatch
      rw [hcode, hdet]
      decide
    rw [sendLoop, hA]
    dsimp only
    rw [if_pos hm, sendLoop, hB]
    dsimp only
    simp
  · intro attempt tmpl l ls e lastErr log hl hm
    rw [sendLoop, hl]
    dsimp only
    rw [if_neg (by simp [hm])]

/-- Witness for C3: with the template missing only in Hindi, the loop
over [hi, en_US] makes two attempts and succeeds in en_US; a hard
failure in the first language aborts immediately. -/
theorem C3_witness :
    sendLoop attemptHindiMissing "order_confirmation" ["hi", "en_US"] none [] =
      .ok "en_US" [("order_confirmation", "hi"), ("order_confirmation", "en_US")] ∧
    sendLoop attemptHardFailure "order_update" ["en", "en_US"] none [] =
      .err (.api ⟨some 131026, "message undeliverable"⟩) [("order_update", "en")] :=
  ⟨C3_language_loop_fallback.1 attemptHindiMissing "order_confirmation" "hi" "en_US"
     ⟨some 132001, "template order_confirmation does not exist in hi"⟩
     (by decide) (by decide) (by decide) (by decide),
   C3_language_loop_fallback.2 attemptHardFailure "order_update" "en" ["en_US"]
     ⟨some 131026, "message undeliverable"⟩ none []
     (by decide) (by decide)⟩

lemma sendLoop_attempts_template (attempt : String → String → Option ApiErr)
    (tmpl : String) :
    ∀ (langs : List String) (lastErr : Option ApiErr) (log : List (String × String)),
      (∀ p ∈ log, p.1 = tmpl) →
      ∀ p ∈ attemptsOf (sendLoop attempt tmpl langs lastErr log), p.1 = tmpl := by
  intro langs
  induction langs with
  | nil =>
    intro lastErr log hlog p hp
    simp only [sendLoop] at hp
    exact hlog p (by simpa [attemptsOf] using hp)
  | cons l ls ih =>
    intro lastErr log hlog p hp
    have hlog2 : ∀ q ∈ log ++ [(tmpl, l)], q.1 = tmpl := by
      intro q hq
      rcases List.mem_append.mp hq with h | h
      · exact hlog q h
      · simp at h
        rw [h]
    rw [sendLoop] at hp
    cases hA : attempt tmpl l with
    | none =>
      rw [hA] at hp
      exact hlog2 p (by simpa [attemptsOf] using hp)
    | some e =>
      rw [hA] at hp
      dsimp only at hp
      by_cases hm : isLangMismatch e = true
      · rw [if_pos hm] at hp
        exact ih (some e) (log ++ [(tmpl, l)]) hlog2 p hp
      · rw [if_neg hm] at hp
        exact hlog2 p (by simpa [attemptsOf] using hp)

lemma sendLoop_exhausted (attempt : String → String → Option ApiErr) (tmpl : String) :
    ∀ (ls : List String) (l : String) (e : ApiErr) (lastErr : Option ApiErr)
      (log : List (String × String)),
      attempt tmpl l = some e →
      (∀ x ∈ ls ++ [l], ∃ ex, attempt tmpl x = some ex ∧ isLangMismatch ex = true) →
      sendLoop attempt tmpl (ls ++ [l]) lastErr log =
        .err (.api e) (log ++ (ls ++ [l]).map (fun x => (tmpl, x))) := by
  intro ls
  induction ls with
  | nil =>
    intro l e lastErr log hl hall
    obtain ⟨ex, hex, hmx⟩ := hall l (by simp)
    rw [hl] at hex
    obtain rfl := Option.some.inj hex
    rw [List.nil_append, sendLoop, hl]
    dsimp only
    rw [if_pos hmx, sendLoop]
    simp
  | cons a as ih =>
    intro l e lastErr log hl hall
    obtain ⟨ea, hea, hma⟩ := hall a (by simp)
    rw [List.cons_append, sendLoop, hea]
    dsimp only
    rw [if_pos hma,
      ih l e (some ea) (log ++ [(tmpl, a)]) hl (fun x hx => hall x (by simp [hx]))]
    simp

/-- Counterexample to C2: with the template missing in every language,
every language of the fallback list fails via the does-not-exist path,
yet the dispatcher makes no attempt with the minimal fallback template
("hello_world") — its attempt log holds only the original template — and
it surfaces the last does-not-exist error. -/
theorem C2_counterexample :
    sendTemplateWithFallback attemptAllMissing "en" "order_confirmation" =
      .err (.api ⟨some 132001, "template order_confirmation does not exist in en_US"⟩)
        [("order_confirmation", "en"), ("order_confirmation", "en_US")] ∧
    ((attemptsOf (sendTemplateWithFallback attemptAllMissing "en" "order_confirmation")).all
        (fun p => p.1 == "order_confirmation")) = true ∧
    ((attemptsOf (sendTemplateWithFallback attemptAllMissing "en" "order_confirmation")).all
        (fun p => !(p.1 == "hello_world"))) = true := by
  refine ⟨?_, by decide, by decide⟩
  decide

/-- C2 as amended: the language-fallback dispatcher never attempts any
template other than the one it was given (in particular never the
minimal fallback template), and when every language fails via the
does-not-exist path it surfaces the last such error; the minimal
no-parameter fallback template is attempted only by the orders-create
handler of the server variant embedded in src/src/store.js, which tries
it exactly when the primary confirmation send fails — after any failure,
not only list exhaustion — and still acknowledges the webhook when the
fallback attempt itself fails. -/
theorem C2_amended_fallback_template :
    (∀ (attempt : String → String → Option ApiErr) (primary tmpl : String),
       ∀ p ∈ attemptsOf (sendTemplateWithFallback attempt primary tmpl), p.1 = tmpl) ∧
    (∀ (attempt : String → String → Option ApiErr) (tmpl : String)
       (ls : List String) (l : String) (e : ApiErr),
       attempt tmpl l = some e →
       (∀ x ∈ ls ++ [l], ∃ ex, attempt tmpl x = some ex ∧ isLangMismatch ex = true) →
       sendLoop attempt tmpl (ls ++ [l]) none [] =
         .err (.api e) ((ls ++ [l]).map (fun x => (tmpl, x)))) ∧
    (∀ send : String → Option ApiErr,
       (ordersCreateSendV2 send).2 = "ok" ∧
       (((ordersCreateSendV2 send).1.map Prod.fst).contains "hello_world" = true ↔
         send "order_confirmation" ≠ none)) := by
  refine ⟨?_, ?_, ?_⟩
  · intro attempt primary tmpl p hp
    exact sendLoop_attempts_template attempt tmpl (langsFor primary) none []
      (by simp) p hp
  · intro attempt tmpl ls l e hl hall
    have h := sendLoop_exhausted attempt tmpl ls l e none [] hl hall
    simpa using h
  · intro send
    cases h1 : send "order_confirmation" with
    | none => simp [ordersCreateSendV2, h1, List.contains]
    | some e1 =>
      cases h2 : send "hello_world" with
      | none => simp [ordersCreateSendV2, h1, h2, List.contains]
      | some e2 => simp [ordersCreateSendV2, h1, h2, List.contains]

/-- Witness for C2 as amended: instantiated at the all-languages-missing
transport and the always-failing single-template transport. -/
theorem C2_witness :
    (("order_confirmation", "en") : String × String).1 = "order_confirmation" ∧
    sendLoop attemptAllMissing "order_confirmation" (["en"] ++ ["en_US"]) none [] =
      .err (.api ⟨some 132001, "template order_confirmation does not exist in en_US"⟩)
        ((["en"] ++ ["en_US"]).map (fun x => ("order_confirmation", x))) ∧
    (ordersCreateSendV2 sendBoom).2 = "ok" ∧
    (((ordersCreateSendV2 sendBoom).1.map Prod.fst).contains "hello_world" = true ↔
      sendBoom "order_confirmation" ≠ none) :=
  ⟨C2_amended_fallback_template.1 attemptAllMissing "en" "order_confirmation"
     ("order_confirmation", "en") (by decide),
   C2_amended_fallback_template.2.1 attemptAllMissing "order_confirmation" ["en"] "en_US"
     ⟨some 132001, "template order_confirmation does not exist in en_US"⟩
     (by decide)
     (by
       intro x hx
       simp at hx
       rcases hx with rfl | rfl
       · exact ⟨_, rfl, by decide⟩
       · exact ⟨_, rfl, by decide⟩),
   (C2_amended_fallback_template.2.2 sendBoom).1,
   (C2_amended_fallback_template.2.2 sendBoom).2⟩
